import Mathlib

/-!
Shallow embedding of the kanban view-model core of `src/src/App.tsx`
(component `KanbanTodoList`).

The React component keeps five pieces of state (`columns`, `newTask`,
`newComment`, `selectedTask`, `loading`); we gather them into `AppState`.
Every reconciliation operation performs remote calls through the supabase
client and, on success, patches the local state.  Remote calls are modelled
by passing the call's outcome as an explicit `Except Unit _` oracle
parameter, and each operation additionally returns the list of remote
calls it issued, so that "performs no remote call" is a provable statement.
-/

namespace Kanban

inductive Priority
  | normal
  | urgente
  | inmediata
  deriving DecidableEq

inductive Status
  | inicio
  | enmarcha
  | acabado
  deriving DecidableEq

/-- The string value a `Status` has in the TypeScript source, where the
droppable ids of the drag-and-drop system are compared to it with `===`. -/
def Status.str : Status → String
  | .inicio => "inicio"
  | .enmarcha => "enmarcha"
  | .acabado => "acabado"

structure Comment where
  id : String
  content : String
  timestamp : Nat
  task_id : String
  deriving DecidableEq

structure Task where
  id : String
  content : String
  status : Status
  priority : Priority
  comments : List Comment
  deriving DecidableEq

structure Column where
  id : Status
  title : String
  tasks : List Task
  color : String
  deriving DecidableEq

def initialColumns : List Column :=
  [ { id := .inicio, title := "Inicio", tasks := [], color := "bg-blue-100" },
    { id := .enmarcha, title := "En Marcha", tasks := [], color := "bg-yellow-100" },
    { id := .acabado, title := "Acabado", tasks := [], color := "bg-red-100" } ]

/-- The component state of `KanbanTodoList`. -/
structure AppState where
  columns : List Column
  newTask : String
  newComment : String
  selectedTask : Option Task
  loading : Bool
  deriving DecidableEq

def initState : AppState :=
  { columns := initialColumns, newTask := "", newComment := "",
    selectedTask := none, loading := true }

/-- JavaScript's `String.prototype.trim`: strip whitespace from both ends
(structurally recursive so that concrete instances evaluate). -/
def jsTrim (s : String) : String :=
  ⟨((s.data.dropWhile Char.isWhitespace).reverse.dropWhile Char.isWhitespace).reverse⟩

/-- A row of the remote `tasks` table (a task as stored remotely, without
the locally attached `comments` field). -/
structure TaskRow where
  id : String
  content : String
  status : Status
  priority : Priority
  deriving DecidableEq

/-- The remote calls an operation can issue, with their payloads. -/
inductive RemoteCall
  | selectTasks
  | selectComments
  | insertTask (content : String) (status : Status) (priority : Priority)
  | updateStatus (taskId : String) (status : Status)
  | updatePriority (taskId : String) (priority : Priority)
  | deleteRow (taskId : String)
  | insertComment (content : String) (task_id : String) (timestamp : Nat)
  deriving DecidableEq

/-- The `tasksWithComments` local of `fetchTasks` (App.tsx lines 87–90):
each fetched task row with the fetched comments whose `task_id` equals
the task's id attached. -/
def tasksWithComments (tasks : List TaskRow) (comments : List Comment) : List Task :=
  tasks.map (fun task =>
    { id := task.id, content := task.content, status := task.status,
      priority := task.priority,
      comments := comments.filter (fun comment => comment.task_id == task.id) })

/-- `fetchTasks` (App.tsx lines 73–103): select all tasks, then all
comments; attach to each task the comments whose `task_id` equals the
task's id; partition the tasks over `initialColumns` by status.  On any
failure the columns are left untouched; `loading` clears regardless. -/
def fetchTasks (s : AppState) (tasksRes : Except Unit (List TaskRow))
    (commentsRes : Except Unit (List Comment)) : AppState × List RemoteCall :=
  match tasksRes with
  | .error _ => ({ s with loading := false }, [.selectTasks])
  | .ok tasks =>
    match commentsRes with
    | .error _ => ({ s with loading := false }, [.selectTasks, .selectComments])
    | .ok comments =>
      let newColumns := initialColumns.map (fun col =>
        { col with tasks :=
            (tasksWithComments tasks comments).filter (fun task => task.status == col.id) })
      ({ s with columns := newColumns, loading := false },
       [.selectTasks, .selectComments])

/-- Location reported by the drag-and-drop system. -/
structure DragLoc where
  droppableId : String
  index : Nat
  deriving DecidableEq

/-- The `DropResult` of the drag-and-drop system (destination may be
absent when the item was dropped outside any droppable). -/
structure DropResult where
  source : DragLoc
  destination : Option DragLoc
  deriving DecidableEq

/-- Placeholder for the JavaScript `undefined` read
`sourceColumn.tasks[source.index]` would produce on an out-of-range
index; the theorems below only use in-range indices. -/
def undefinedTask : Task :=
  { id := "", content := "", status := .inicio, priority := .normal, comments := [] }

/-- `Array.prototype.splice(i, 1)` removal: drop the element at index
`i`, identity when `i` is out of range. -/
def spliceRemove (l : List α) (i : Nat) : List α :=
  l.take i ++ l.drop (i + 1)

/-- `Array.prototype.splice(i, 0, a)` insertion: insert `a` at index `i`,
clamped to the end when `i` exceeds the length. -/
def spliceInsert (l : List α) (i : Nat) (a : α) : List α :=
  l.take i ++ [a] ++ l.drop i

/-- `onDragEnd` (App.tsx lines 105–142): no-op when there is no
destination or a column lookup fails; otherwise update the task's status
remotely and, on success, map over the columns removing the task from the
source column — or, when the column is not the source but is the
destination, inserting the updated task.  The two branches mirror the
source's two early-`return` `if`s, so a column that is both source and
destination only takes the removal branch. -/
def onDragEnd (s : AppState) (result : DropResult)
    (updateRes : Except Unit Unit) : AppState × List RemoteCall :=
  match result.destination with
  | none => (s, [])
  | some destination =>
    match s.columns.find? (fun col => col.id.str == result.source.droppableId),
          s.columns.find? (fun col => col.id.str == destination.droppableId) with
    | some sourceColumn, some destColumn =>
      let task := sourceColumn.tasks.getD result.source.index undefinedTask
      let updatedTask := { task with status := destColumn.id }
      match updateRes with
      | .error _ => (s, [.updateStatus task.id destColumn.id])
      | .ok _ =>
        let newColumns := s.columns.map (fun col =>
          if col.id.str == result.source.droppableId then
            { col with tasks := spliceRemove col.tasks result.source.index }
          else if col.id.str == destination.droppableId then
            { col with tasks := spliceInsert col.tasks destination.index updatedTask }
          else col)
        ({ s with columns := newColumns }, [.updateStatus task.id destColumn.id])
    | _, _ => (s, [])

/-- `addTask` (App.tsx lines 144–171): no-op when the draft trims to
empty; otherwise insert `{content, status: inicio, priority: normal}`
remotely and, on success, append the returned row (with empty comments)
to the `inicio` column and clear the draft. -/
def addTask (s : AppState) (insertRes : Except Unit TaskRow) :
    AppState × List RemoteCall :=
  if jsTrim s.newTask == "" then (s, [])
  else
    match insertRes with
    | .error _ => (s, [.insertTask (jsTrim s.newTask) .inicio .normal])
    | .ok row =>
      let returnedTask : Task :=
        { id := row.id, content := row.content, status := row.status,
          priority := row.priority, comments := [] }
      let newColumns := s.columns.map (fun col =>
        if col.id == Status.inicio then { col with tasks := col.tasks ++ [returnedTask] }
        else col)
      ({ s with columns := newColumns, newTask := "" },
       [.insertTask (jsTrim s.newTask) .inicio .normal])

/-- `changeTaskPriority` (App.tsx lines 173–193): update the priority
remotely and, on success, replace the priority of every task whose id
matches, in place, in every column. -/
def changeTaskPriority (s : AppState) (taskId : String) (newPriority : Priority)
    (updateRes : Except Unit Unit) : AppState × List RemoteCall :=
  match updateRes with
  | .error _ => (s, [.updatePriority taskId newPriority])
  | .ok _ =>
    let newColumns := s.columns.map (fun col =>
      { col with tasks := col.tasks.map (fun task =>
          if task.id == taskId then { task with priority := newPriority } else task) })
    ({ s with columns := newColumns }, [.updatePriority taskId newPriority])

/-- `deleteTask` (App.tsx lines 195–212): delete the row remotely and, on
success, filter the task id out of every column's list.  The core checks
no status precondition. -/
def deleteTask (s : AppState) (taskId : String)
    (deleteRes : Except Unit Unit) : AppState × List RemoteCall :=
  match deleteRes with
  | .error _ => (s, [.deleteRow taskId])
  | .ok _ =>
    let newColumns := s.columns.map (fun col =>
      { col with tasks := col.tasks.filter (fun task => task.id != taskId) })
    ({ s with columns := newColumns }, [.deleteRow taskId])

/-- `addComment` (App.tsx lines 214–246): no-op without an active task or
with a draft that trims to empty; otherwise insert the comment remotely
and, on success, append the returned comment to every task whose id
matches the active task's id, clear the draft and the active task.
`now` models `Date.now()`. -/
def addComment (s : AppState) (now : Nat) (insertRes : Except Unit Comment) :
    AppState × List RemoteCall :=
  match s.selectedTask with
  | none => (s, [])
  | some selectedTask =>
    if jsTrim s.newComment == "" then (s, [])
    else
      match insertRes with
      | .error _ => (s, [.insertComment (jsTrim s.newComment) selectedTask.id now])
      | .ok returned =>
        let newColumns := s.columns.map (fun col =>
          { col with tasks := col.tasks.map (fun task =>
              if task.id == selectedTask.id then
                { task with comments := task.comments ++ [returned] }
              else task) })
        ({ s with columns := newColumns, newComment := "", selectedTask := none },
         [.insertComment (jsTrim s.newComment) selectedTask.id now])

/-! Concrete fixtures used by the witness theorems and counterexamples. -/

def taskA : Task :=
  { id := "tA", content := "A", status := .inicio, priority := .normal, comments := [] }

def taskB : Task :=
  { id := "tB", content := "B", status := .inicio, priority := .normal, comments := [] }

/-- The `inicio` column holding `taskA` then `taskB`. -/
def inicioColumnAB : Column :=
  { id := .inicio, title := "Inicio", tasks := [taskA, taskB], color := "bg-blue-100" }

/-- A loaded board whose `inicio` column holds two tasks. -/
def twoTaskState : AppState :=
  { columns :=
      [ inicioColumnAB,
        { id := .enmarcha, title := "En Marcha", tasks := [], color := "bg-yellow-100" },
        { id := .acabado, title := "Acabado", tasks := [], color := "bg-red-100" } ],
    newTask := "", newComment := "", selectedTask := none, loading := false }

def writeReportState : AppState := { initState with newTask := "Write report" }

def rowT2 : TaskRow :=
  { id := "t2", content := "Write report", status := .inicio, priority := .normal }

def blankDraftState : AppState := { initState with newTask := "   " }

/-- Board with an active task and a non-blank comment draft. -/
def commentState : AppState :=
  { twoTaskState with selectedTask := some taskA, newComment := "Looks good" }

def commentReturned : Comment :=
  { id := "c1", content := "Looks good", timestamp := 7, task_id := "tA" }

/-! Helper lemmas. -/

/-- Mapping `F` and then projecting with `g` is mapping with `k`,
whenever `g` after `F` agrees with `k` on the list's elements. -/
theorem map_map_eq_map {α β γ : Type} (l : List α) (F : α → β) (g : β → γ) (k : α → γ)
    (h : ∀ a ∈ l, g (F a) = k a) : (l.map F).map g = l.map k := by
  induction l with
  | nil => rfl
  | cons a l ih => simp_all

/-- Replacing the priority of every task matching `taskId` by `p` is the
identity when every matching task already has priority `p`. -/
theorem priorityMap_eq_self (l : List Task) (taskId : String) (p : Priority)
    (h : ∀ t ∈ l, t.id = taskId → t.priority = p) :
    l.map (fun task =>
      if task.id == taskId then { task with priority := p } else task) = l := by
  induction l with
  | nil => rfl
  | cons a l ih =>
    simp only [List.map_cons, List.cons.injEq]
    constructor
    · by_cases ha : a.id = taskId
      · have hp := h a (List.mem_cons_self a l) ha
        cases a
        simp_all
      · simp [beq_iff_eq, ha]
    · exact ih (fun t ht => h t (List.mem_cons_of_mem a ht))

/-- The column-level version of `priorityMap_eq_self`. -/
theorem columnsPriorityMap_eq_self (l : List Column) (taskId : String) (p : Priority)
    (h : ∀ c ∈ l, ∀ t ∈ c.tasks, t.id = taskId → t.priority = p) :
    l.map (fun col =>
      { col with tasks := col.tasks.map (fun task =>
          if task.id == taskId then { task with priority := p } else task) }) = l := by
  induction l with
  | nil => rfl
  | cons c l ih =>
    simp only [List.map_cons, List.cons.injEq]
    refine ⟨?_, ih (fun c2 hc2 => h c2 (List.mem_cons_of_mem c hc2))⟩
    have htasks := priorityMap_eq_self c.tasks taskId p (h c (List.mem_cons_self c l))
    cases c
    simp_all

/-- Claim C1 (failing input): dragging `taskA` from `inicio` index 0 to
`inicio` index 1 — a same-column reorder — with a successful remote
update issues the expected status update but removes the task without
reinserting it: the source branch of the column map shadows the
destination branch, so `taskA` ends up in no column at all, violating
the invariant that the moved task appears in exactly one column. -/
theorem onDragEnd_sameColumn_loses_task :
    (onDragEnd twoTaskState
        { source := { droppableId := "inicio", index := 0 },
          destination := some { droppableId := "inicio", index := 1 } }
        (Except.ok ())).2 = [RemoteCall.updateStatus "tA" Status.inicio] ∧
    (onDragEnd twoTaskState
        { source := { droppableId := "inicio", index := 0 },
          destination := some { droppableId := "inicio", index := 1 } }
        (Except.ok ())).1.columns.map (fun c => c.tasks.map Task.id) =
      [["tB"], [], []] ∧
    (onDragEnd twoTaskState
        { source := { droppableId := "inicio", index := 0 },
          destination := some { droppableId := "inicio", index := 1 } }
        (Except.ok ())).1.columns.all
      (fun c => c.tasks.all (fun t => t.id != "tA")) = true := by
  decide

/-- Claim C2: whenever the remote call of an operation fails, the local
column state is exactly what it was before the operation — including the
Load case where the tasks fetch succeeds and the comments fetch fails,
where the fetched tasks are not partially applied. -/
theorem remote_error_preserves_state (s : AppState)
    (cRes : Except Unit (List Comment)) (tasks : List TaskRow)
    (dr : DropResult) (taskId : String) (p : Priority) (now : Nat) :
    (fetchTasks s (Except.error ()) cRes).1.columns = s.columns ∧
    (fetchTasks s (Except.ok tasks) (Except.error ())).1.columns = s.columns ∧
    (onDragEnd s dr (Except.error ())).1 = s ∧
    (addTask s (Except.error ())).1 = s ∧
    (changeTaskPriority s taskId p (Except.error ())).1 = s ∧
    (deleteTask s taskId (Except.error ())).1 = s ∧
    (addComment s now (Except.error ())).1 = s := by
  refine ⟨rfl, rfl, ?_, ?_, rfl, rfl, ?_⟩
  · unfold onDragEnd
    split
    · rfl
    · split
      · split
        · rfl
        · simp_all
      · rfl
  · unfold addTask
    split
    · rfl
    · rfl
  · unfold addComment
    split
    · rfl
    · split
      · rfl
      · rfl

/-- Claim C3: a successful Load yields the three columns `inicio`,
`enmarcha`, `acabado`, each holding exactly the fetched tasks whose
status matches the column id in fetch order, with each task carrying
exactly the comments whose `task_id` equals its id; in particular a
single `inicio` task with no comments lands alone in the `inicio`
column. -/
theorem fetchTasks_ok_spec (s : AppState) (tasks : List TaskRow)
    (comments : List Comment) :
    (fetchTasks s (Except.ok tasks) (Except.ok comments)).2 =
      [RemoteCall.selectTasks, RemoteCall.selectComments] ∧
    (fetchTasks s (Except.ok tasks) (Except.ok comments)).1.columns.map Column.id =
      [Status.inicio, Status.enmarcha, Status.acabado] ∧
    (fetchTasks s (Except.ok tasks) (Except.ok comments)).1.columns.map Column.tasks =
      [ (tasksWithComments tasks comments).filter (fun task => task.status == Status.inicio),
        (tasksWithComments tasks comments).filter (fun task => task.status == Status.enmarcha),
        (tasksWithComments tasks comments).filter (fun task => task.status == Status.acabado) ] ∧
    (tasksWithComments tasks comments).map Task.id = tasks.map TaskRow.id ∧
    (tasksWithComments tasks comments).map Task.comments =
      tasks.map (fun row => comments.filter (fun comment => comment.task_id == row.id)) ∧
    (fetchTasks initState
        (Except.ok [{ id := "t1", content := "Buy milk", status := .inicio, priority := .normal }])
        (Except.ok [])).1.columns =
      [ { id := .inicio, title := "Inicio",
          tasks := [{ id := "t1", content := "Buy milk", status := .inicio,
                      priority := .normal, comments := [] }],
          color := "bg-blue-100" },
        { id := .enmarcha, title := "En Marcha", tasks := [], color := "bg-yellow-100" },
        { id := .acabado, title := "Acabado", tasks := [], color := "bg-red-100" } ] := by
  refine ⟨rfl, rfl, rfl, ?_, ?_, by decide⟩
  · exact map_map_eq_map tasks _ Task.id TaskRow.id (fun a _ => rfl)
  · exact map_map_eq_map tasks _ Task.comments _ (fun a _ => rfl)

/-- Claim C4: with a draft whose trim is non-empty, Create issues one
remote insert of the trimmed content with status `inicio` and priority
`normal` and, on success, appends the remotely returned row (with empty
comments) to the end of the `inicio` column, leaves the other columns
unchanged, and clears the draft. -/
theorem addTask_ok_spec (s : AppState) (row : TaskRow)
    (h : jsTrim s.newTask ≠ "") :
    addTask s (Except.ok row) =
      ({ s with
          columns := s.columns.map (fun col =>
            if col.id == Status.inicio then
              { col with tasks := col.tasks ++
                  [{ id := row.id, content := row.content, status := row.status,
                     priority := row.priority, comments := [] }] }
            else col),
          newTask := "" },
       [RemoteCall.insertTask (jsTrim s.newTask) Status.inicio Priority.normal]) := by
  unfold addTask
  rw [if_neg (by simp [h])]

/-- Claim C4 witness: Create on a board whose draft is "Write report". -/
theorem addTask_ok_spec_witness :
    (addTask writeReportState (Except.ok rowT2)).2 =
      [RemoteCall.insertTask "Write report" Status.inicio Priority.normal] :=
  congrArg Prod.snd (addTask_ok_spec writeReportState rowT2 (by decide))

/-- Claim C5: with a draft that is empty or whitespace-only, Create
performs no remote call and changes no state, whatever the remote oracle
would have answered. -/
theorem addTask_blank_noop (s : AppState) (insertRes : Except Unit TaskRow)
    (h : jsTrim s.newTask = "") :
    addTask s insertRes = (s, []) := by
  unfold addTask
  rw [if_pos (by simp [h])]

/-- Claim C5 witness: Create on the whitespace-only draft "   ". -/
theorem addTask_blank_noop_witness :
    addTask blankDraftState (Except.error ()) = (blankDraftState, []) :=
  addTask_blank_noop blankDraftState (Except.error ()) (by decide)

/-- Claim C6: re-prioritizing a task that is present in some column with
its current priority — when every task carrying that id already has that
priority — leaves the whole state observably unchanged. -/
theorem changeTaskPriority_idem (s : AppState) (c : Column) (t : Task)
    (hc : c ∈ s.columns) (ht : t ∈ c.tasks)
    (h : ∀ c2 ∈ s.columns, ∀ u ∈ c2.tasks, u.id = t.id → u.priority = t.priority) :
    (changeTaskPriority s t.id t.priority (Except.ok ())).1 = s := by
  unfold changeTaskPriority
  rw [columnsPriorityMap_eq_self s.columns t.id t.priority h]

/-- Claim C6 witness: re-prioritizing `taskA` with its current `normal`
priority on the two-task board. -/
theorem changeTaskPriority_idem_witness :
    (changeTaskPriority twoTaskState "tA" Priority.normal (Except.ok ())).1 =
      twoTaskState :=
  changeTaskPriority_idem twoTaskState inicioColumnAB taskA
    (by decide) (by decide) (by decide)

/-- Claim C7: a successful re-prioritize issues exactly the priority
update call, and changes only the priority of the tasks whose id matches:
the non-column state, the columns' ids, titles and colors, and every
task's id, content, status, comments and position are unchanged, the
priorities become the new one exactly at matching ids, and when no task
carries the id the state is unchanged altogether. -/
theorem changeTaskPriority_frame (s : AppState) (taskId : String) (p : Priority) :
    (changeTaskPriority s taskId p (Except.ok ())).2 =
      [RemoteCall.updatePriority taskId p] ∧
    (changeTaskPriority s taskId p (Except.ok ())).1.newTask = s.newTask ∧
    (changeTaskPriority s taskId p (Except.ok ())).1.newComment = s.newComment ∧
    (changeTaskPriority s taskId p (Except.ok ())).1.selectedTask = s.selectedTask ∧
    (changeTaskPriority s taskId p (Except.ok ())).1.loading = s.loading ∧
    (changeTaskPriority s taskId p (Except.ok ())).1.columns.map Column.id =
      s.columns.map Column.id ∧
    (changeTaskPriority s taskId p (Except.ok ())).1.columns.map Column.title =
      s.columns.map Column.title ∧
    (changeTaskPriority s taskId p (Except.ok ())).1.columns.map Column.color =
      s.columns.map Column.color ∧
    (changeTaskPriority s taskId p (Except.ok ())).1.columns.map
        (fun c => c.tasks.map Task.id) =
      s.columns.map (fun c => c.tasks.map Task.id) ∧
    (changeTaskPriority s taskId p (Except.ok ())).1.columns.map
        (fun c => c.tasks.map Task.content) =
      s.columns.map (fun c => c.tasks.map Task.content) ∧
    (changeTaskPriority s taskId p (Except.ok ())).1.columns.map
        (fun c => c.tasks.map Task.status) =
      s.columns.map (fun c => c.tasks.map Task.status) ∧
    (changeTaskPriority s taskId p (Except.ok ())).1.columns.map
        (fun c => c.tasks.map Task.comments) =
      s.columns.map (fun c => c.tasks.map Task.comments) ∧
    (changeTaskPriority s taskId p (Except.ok ())).1.columns.map
        (fun c => c.tasks.map Task.priority) =
      s.columns.map (fun c => c.tasks.map
        (fun t => if t.id == taskId then p else t.priority)) ∧
    ((∀ c ∈ s.columns, ∀ t ∈ c.tasks, t.id ≠ taskId) →
      (changeTaskPriority s taskId p (Except.ok ())).1 = s) := by
  refine ⟨rfl, rfl, rfl, rfl, rfl, ?_, ?_, ?_, ?_, ?_, ?_, ?_, ?_, ?_⟩
  · exact map_map_eq_map s.columns _ Column.id Column.id (fun c _ => rfl)
  · exact map_map_eq_map s.columns _ Column.title Column.title (fun c _ => rfl)
  · exact map_map_eq_map s.columns _ Column.color Column.color (fun c _ => rfl)
  · exact map_map_eq_map s.columns _ _ _ (fun c _ =>
      map_map_eq_map c.tasks _ Task.id Task.id (fun t _ => by
        by_cases hb : t.id = taskId <;> simp [hb]))
  · exact map_map_eq_map s.columns _ _ _ (fun c _ =>
      map_map_eq_map c.tasks _ Task.content Task.content (fun t _ => by
        by_cases hb : t.id = taskId <;> simp [hb]))
  · exact map_map_eq_map s.columns _ _ _ (fun c _ =>
      map_map_eq_map c.tasks _ Task.status Task.status (fun t _ => by
        by_cases hb : t.id = taskId <;> simp [hb]))
  · exact map_map_eq_map s.columns _ _ _ (fun c _ =>
      map_map_eq_map c.tasks _ Task.comments Task.comments (fun t _ => by
        by_cases hb : t.id = taskId <;> simp [hb]))
  · exact map_map_eq_map s.columns _ _ _ (fun c _ =>
      map_map_eq_map c.tasks _ Task.priority _ (fun t _ => by
        by_cases hb : t.id = taskId <;> simp [hb]))
  · intro h
    unfold changeTaskPriority
    rw [columnsPriorityMap_eq_self s.columns taskId p
      (fun c hc t ht hid => absurd hid (h c hc t ht))]

/-- Claim C7 witness: re-prioritizing an id that appears on no task
leaves the two-task board unchanged. -/
theorem changeTaskPriority_frame_witness :
    (changeTaskPriority twoTaskState "zzz" Priority.urgente (Except.ok ())).1 =
      twoTaskState := by
  have h := changeTaskPriority_frame twoTaskState "zzz" Priority.urgente
  exact h.2.2.2.2.2.2.2.2.2.2.2.2.2 (by decide)

/-- Claim C8: a successful Delete — on any state, with no precondition on
the task's status — issues the remote delete and removes every task with
the given id from every column, so it appears nowhere afterwards, while
the columns and the remaining tasks (in order) and the rest of the state
are untouched. -/
theorem deleteTask_ok_spec (s : AppState) (taskId : String) :
    (deleteTask s taskId (Except.ok ())).2 = [RemoteCall.deleteRow taskId] ∧
    (deleteTask s taskId (Except.ok ())).1.columns.all
      (fun c => c.tasks.all (fun t => t.id != taskId)) = true ∧
    (deleteTask s taskId (Except.ok ())).1.columns.map Column.id =
      s.columns.map Column.id ∧
    (deleteTask s taskId (Except.ok ())).1.columns.map Column.title =
      s.columns.map Column.title ∧
    (deleteTask s taskId (Except.ok ())).1.columns.map Column.color =
      s.columns.map Column.color ∧
    (deleteTask s taskId (Except.ok ())).1.columns.map Column.tasks =
      s.columns.map (fun c => c.tasks.filter (fun t => t.id != taskId)) ∧
    (deleteTask s taskId (Except.ok ())).1.newTask = s.newTask ∧
    (deleteTask s taskId (Except.ok ())).1.newComment = s.newComment ∧
    (deleteTask s taskId (Except.ok ())).1.selectedTask = s.selectedTask ∧
    (deleteTask s taskId (Except.ok ())).1.loading = s.loading := by
  refine ⟨rfl, ?_, ?_, ?_, ?_, ?_, rfl, rfl, rfl, rfl⟩
  · simp only [deleteTask, List.all_eq_true, List.mem_map]
    rintro c ⟨c0, hc0, rfl⟩ t ht
    simpa using (List.of_mem_filter ht)
  · exact map_map_eq_map s.columns _ Column.id Column.id (fun c _ => rfl)
  · exact map_map_eq_map s.columns _ Column.title Column.title (fun c _ => rfl)
  · exact map_map_eq_map s.columns _ Column.color Column.color (fun c _ => rfl)
  · exact map_map_eq_map s.columns _ Column.tasks _ (fun c _ => rfl)

/-- Claim C9: with an active task and a draft whose trim is non-empty, a
successful Add Comment appends the remotely returned comment to the end
of the comment list of every task whose id matches the active task's id,
clears the comment draft and the active-task reference; without an
active task, or with a blank draft, it performs no remote call and
changes nothing. -/
theorem addComment_spec (s : AppState) (now : Nat) :
    (∀ st, s.selectedTask = some st → jsTrim s.newComment ≠ "" →
      ∀ returned, addComment s now (Except.ok returned) =
        ({ s with
            columns := s.columns.map (fun col =>
              { col with tasks := col.tasks.map (fun task =>
                  if task.id == st.id then
                    { task with comments := task.comments ++ [returned] }
                  else task) }),
            newComment := "", selectedTask := none },
         [RemoteCall.insertComment (jsTrim s.newComment) st.id now])) ∧
    (s.selectedTask = none →
      ∀ insertRes, addComment s now insertRes = (s, [])) ∧
    (jsTrim s.newComment = "" →
      ∀ insertRes, addComment s now insertRes = (s, [])) := by
  refine ⟨?_, ?_, ?_⟩
  · intro st hst hne returned
    unfold addComment
    rw [hst]
    dsimp only
    rw [if_neg (by simp [hne])]
  · intro hnone insertRes
    unfold addComment
    rw [hnone]
  · intro hblank insertRes
    unfold addComment
    cases hst : s.selectedTask with
    | none => rfl
    | some st =>
      dsimp only
      rw [if_pos (by simp [hblank])]

/-- Claim C9 witness: adding the returned comment "Looks good" to the
active task `taskA`, and the blank-draft no-op. -/
theorem addComment_spec_witness :
    (addComment commentState 7 (Except.ok commentReturned)).1.selectedTask = none ∧
    (addComment commentState 7 (Except.ok commentReturned)).1.newComment = "" ∧
    addComment twoTaskState 7 (Except.error ()) = (twoTaskState, []) := by
  have h := (addComment_spec commentState 7).1 taskA rfl (by decide) commentReturned
  refine ⟨by rw [h], by rw [h], ?_⟩
  exact (addComment_spec twoTaskState 7).2.1 rfl (Except.error ())

/-- Claim C10: a drag whose destination is absent, or whose source or
destination droppable id matches no column of the board, performs no
remote call and leaves the state unchanged, whatever the remote oracle
would have answered. -/
theorem onDragEnd_invalid_noop (s : AppState) (result : DropResult)
    (res : Except Unit Unit) :
    (result.destination = none → onDragEnd s result res = (s, [])) ∧
    ((∀ c ∈ s.columns, c.id.str ≠ result.source.droppableId) →
      onDragEnd s result res = (s, [])) ∧
    (∀ d, result.destination = some d →
      (∀ c ∈ s.columns, c.id.str ≠ d.droppableId) →
      onDragEnd s result res = (s, [])) := by
  refine ⟨?_, ?_, ?_⟩
  · intro h
    unfold onDragEnd
    rw [h]
  · intro h
    unfold onDragEnd
    cases hd : result.destination with
    | none => rfl
    | some d =>
      have hf : s.columns.find? (fun col => col.id.str == result.source.droppableId)
          = none := by
        rw [List.find?_eq_none]
        intro c hc
        simpa using h c hc
      rw [hf]
  · intro d hd h
    unfold onDragEnd
    rw [hd]
    dsimp only
    have hf : s.columns.find? (fun col => col.id.str == d.droppableId) = none := by
      rw [List.find?_eq_none]
      intro c hc
      simpa using h c hc
    rw [hf]
    split
    · simp_all
    · rfl

/-- Claim C10 witness: a drop outside any column, and a drop whose
destination names the unknown column "nope", both leave the two-task
board unchanged with no remote call. -/
theorem onDragEnd_invalid_noop_witness :
    onDragEnd twoTaskState
      { source := { droppableId := "inicio", index := 0 }, destination := none }
      (Except.ok ()) = (twoTaskState, []) ∧
    onDragEnd twoTaskState
      { source := { droppableId := "inicio", index := 0 },
        destination := some { droppableId := "nope", index := 0 } }
      (Except.ok ()) = (twoTaskState, []) := by
  constructor
  · exact (onDragEnd_invalid_noop twoTaskState _ _).1 rfl
  · exact (onDragEnd_invalid_noop twoTaskState _ _).2.2 _ rfl (by decide)

end Kanban
